import Mathlib

/-!
# Shallow embedding of the Barberia booking backend

This file embeds the appointment scheduling core of `src/backend/server.py`
(FastAPI + MongoDB) as executable Lean definitions and proves properties of
the scheduling and conflict-resolution subsystem.

Modelling conventions:
* Instants (`datetime` values stored as BSON dates) are naive UTC timestamps
  in milliseconds.  `timedelta(minutes=d)` is `d * msPerMin`; the Mongo
  `$multiply: [.., 60000]` factor appears literally in the source.
* A calendar date is a day index since the epoch (1970-01-01, a Thursday);
  `datetime.combine(date, min.time())` is `dayIdx * msPerDay` and
  `datetime.combine(date, max.time())` ends the day at `msPerDay - 1`
  milliseconds (BSON dates carry millisecond precision).
* Mongo documents are dynamic; the stored appointment document is embedded as
  a structure whose `duration_minutes` field is an `Option` because no code
  path of this backend writes that field (see `create_appointment`), while
  the create-time conflict query reads it.
* `datetime.now()` / `datetime.utcnow()` are injected as an explicit `now`
  parameter, and Mongo's ObjectId generation as an explicit fresh-id
  parameter; neither value influences any branch of the embedded logic.
* HTTP-level concerns (JSON parsing, ISO date parsing, bearer-token
  resolution of the current user) are outside the embedded core: operations
  take the already-resolved actor and already-parsed arguments.
-/

namespace Barberia

def msPerMin : Nat := 60000

def msPerDay : Nat := 86400000

namespace UserRole

def ADMIN : String := "admin"

def BARBER : String := "barber"

def CLIENT : String := "client"

end UserRole

namespace AppointmentStatus

def PENDING : String := "pending"

def CONFIRMED : String := "confirmed"

def COMPLETED : String := "completed"

def CANCELLED : String := "cancelled"

end AppointmentStatus

/-- A wall-clock time of day, as parsed from the `"HH:MM"` strings stored in
a barber's `schedule` dict (`datetime.strptime(.., "%H:%M")`, server.py
lines 551-552). -/
structure TimeHM where
  hour : Nat
  minute : Nat
deriving DecidableEq, Repr

/-- Milliseconds since midnight of a `TimeHM`
(`datetime.combine(target_date, t)` minus the start of the day). -/
def hmToMs (t : TimeHM) : Nat :=
  (t.hour * 60 + t.minute) * msPerMin

/-- One weekday entry of a barber's schedule.  The source stores a dict with
keys `"start"` and `"end"`; the `"end"` key is embedded as `stop` because
`end` is a Lean keyword. -/
structure DaySchedule where
  start : TimeHM
  stop : TimeHM
deriving DecidableEq, Repr

/-- A `barbers` collection document (the fields the scheduling core reads).
`schedule` maps lowercase English day names to day windows. -/
structure Barber where
  user_id : String
  schedule : List (String × DaySchedule)
  active : Bool
deriving DecidableEq, Repr

/-- A `services` collection document.  `price` is a float in the source;
it is embedded as `Rat` — the core only copies and compares prices, it never
does arithmetic on them. -/
structure Service where
  name : String
  description : Option String
  duration_minutes : Nat
  price : Rat
  category : Option String
  active : Bool
  created_at : Nat
  updated_at : Option Nat
deriving DecidableEq, Repr

/-- An `appointments` collection document as actually stored by
`create_appointment` (server.py lines 413-419): the fields of
`AppointmentCreate` plus `total_price`, `created_at` and `status`.
`duration_minutes` is `Option Nat` because Mongo documents are dynamic and
NO code path of this backend ever writes that field on an appointment —
`create_appointment` always stores it absent (`none`) — while the conflict
query's `$expr` reads `"$duration_minutes"`. -/
structure Appointment where
  client_id : String
  barber_id : String
  service_id : String
  scheduled_at : Nat
  status : String
  notes : Option String
  total_price : Rat
  created_at : Nat
  updated_at : Option Nat
  duration_minutes : Option Nat
deriving DecidableEq, Repr

/-- Request body of `POST /api/appointments`. -/
structure AppointmentCreate where
  client_id : String
  barber_id : String
  service_id : String
  scheduled_at : Nat
  notes : Option String
deriving DecidableEq, Repr

/-- Request body of `POST`/`PUT /api/services` (`ServiceCreate`). -/
structure ServiceCreate where
  name : String
  description : Option String
  duration_minutes : Nat
  price : Rat
  category : Option String
deriving DecidableEq, Repr

/-- The already-authenticated actor (`get_current_user` result): its user id
and role are all the scheduling core consults. -/
structure User where
  id : String
  role : String
deriving DecidableEq, Repr

/-- The Mongo database state visible to the scheduling core: each collection
is an association list from document `_id` (stringified ObjectId) to
document. -/
structure DB where
  services : List (String × Service)
  barbers : List (String × Barber)
  appointments : List (String × Appointment)
deriving DecidableEq, Repr

/-- `db.services.find_one({"_id": ObjectId(sid)})`. -/
def findService (db : DB) (sid : String) : Option Service :=
  (db.services.find? (fun p => p.1 == sid)).map (fun p => p.2)

/-- `db.barbers.find_one({"_id": ObjectId(bid)})`. -/
def findBarber (db : DB) (bid : String) : Option Barber :=
  (db.barbers.find? (fun p => p.1 == bid)).map (fun p => p.2)

/-- `db.appointments.find_one({"_id": ObjectId(aid)})`. -/
def findAppt (db : DB) (aid : String) : Option Appointment :=
  (db.appointments.find? (fun p => p.1 == aid)).map (fun p => p.2)

/-- `barber.get("schedule", {}).get(day_name)` (server.py line 525). -/
def scheduleLookup (sch : List (String × DaySchedule)) (day : String) :
    Option DaySchedule :=
  (sch.find? (fun p => p.1 == day)).map (fun p => p.2)

/-- Lowercase English day names, Monday first
(`target_date.strftime("%A").lower()`). -/
def dayNames : List String :=
  ["monday", "tuesday", "wednesday", "thursday", "friday", "saturday",
   "sunday"]

/-- Weekday name of a day index.  Day 0 (1970-01-01) was a Thursday, hence
the offset 3 into the Monday-first name list. -/
def dayName (dayIdx : Nat) : String :=
  dayNames.getD ((dayIdx + 3) % 7) ""

/-- The error outcomes (`HTTPException`s) of the embedded endpoints, named
after the spec's error taxonomy; each constructor corresponds to one
`raise HTTPException` site of server.py. -/
inductive Err where
  /-- 404 "Servicio no encontrado" -/
  | notFoundService : Err
  /-- 404 "Barbero no encontrado" -/
  | notFoundBarber : Err
  /-- 400 "El barbero no está disponible en ese horario" -/
  | schedulingConflict : Err
  /-- 404 "Cita no encontrada" -/
  | notFoundAppointment : Err
  /-- 400 "Status is required" -/
  | missingStatus : Err
  /-- 400 "Estado inválido" -/
  | invalidStatus : Err
  /-- 403 "No autorizado" -/
  | forbidden : Err
deriving DecidableEq, Repr

/-- `status == "pending" or status == "confirmed"`: the statuses that hold a
calendar slot (`{"$in": [PENDING, CONFIRMED]}`). -/
def isActive (a : Appointment) : Bool :=
  a.status == AppointmentStatus.PENDING
    || a.status == AppointmentStatus.CONFIRMED

/-- Per-appointment duration resolution used by the availability endpoint
(server.py lines 541-542): look the service up and fall back to 60 minutes
when it cannot be resolved. -/
def durationOf (db : DB) (a : Appointment) : Nat :=
  match findService db a.service_id with
  | some s => s.duration_minutes
  | none => 60

/-- The occupied half-open interval `[scheduled_at, scheduled_at + duration)`
of an appointment, in milliseconds, with the duration resolved from the
service catalog as the source does. -/
def occupiedInterval (db : DB) (a : Appointment) : Nat × Nat :=
  (a.scheduled_at, a.scheduled_at + durationOf db a * msPerMin)

/-- Half-open interval overlap test `i.1 < j.2 ∧ j.1 < i.2`. -/
def overlaps (i j : Nat × Nat) : Bool :=
  decide (i.1 < j.2) && decide (j.1 < i.2)

/-- The slot-filter conflict test of the availability endpoint, verbatim from
server.py line 563:
`current_slot < appointment["end"] and slot_end > appointment["start"]`. -/
def slotConflicts (slotStart slotEnd apStart apEnd : Nat) : Bool :=
  decide (slotStart < apEnd) && decide (slotEnd > apStart)

/-- One existing-appointment document's match against the conflict query of
`create_appointment` (server.py lines 396-408):

* `"barber_id": appointment_data.barber_id`
* `"scheduled_at": {"$lt": appointment_end}`
* `"status": {"$in": [PENDING, CONFIRMED]}`
* `"$expr": {"$gt": [{"$add": ["$scheduled_at",
    {"$multiply": ["$duration_minutes", 60000]}]}, scheduled_at]}`

When the stored document has no `duration_minutes` field (which is the case
for every appointment this backend writes), Mongo's aggregation semantics
make `$multiply` and then `$add` evaluate to null, and in the BSON
comparison order null sorts before dates, so the `$gt` is false and the
document does not match. -/
def conflictQueryMatches (bid : String) (candStart candEnd : Nat)
    (a : Appointment) : Bool :=
  a.barber_id == bid
    && decide (a.scheduled_at < candEnd)
    && isActive a
    && (match a.duration_minutes with
        | some dm => decide (a.scheduled_at + dm * msPerMin > candStart)
        | none => false)

/-- `POST /api/appointments` (server.py lines 380-425).  Returns the HTTP
outcome together with the post-state of the store.  `now` is the injected
wall clock (`datetime.utcnow()`), `newId` the ObjectId Mongo would mint for
the insert. -/
def create_appointment (db : DB) (now : Nat) (newId : String)
    (d : AppointmentCreate) : Except Err Appointment × DB :=
  match findService db d.service_id with
  | none => (Except.error Err.notFoundService, db)
  | some service =>
    match findBarber db d.barber_id with
    | none => (Except.error Err.notFoundBarber, db)
    | some _ =>
      let appointment_end := d.scheduled_at + service.duration_minutes * msPerMin
      match db.appointments.find?
          (fun p => conflictQueryMatches d.barber_id d.scheduled_at
            appointment_end p.2) with
      | some _ => (Except.error Err.schedulingConflict, db)
      | none =>
        let appt : Appointment :=
          { client_id := d.client_id
            barber_id := d.barber_id
            service_id := d.service_id
            scheduled_at := d.scheduled_at
            status := AppointmentStatus.PENDING
            notes := d.notes
            total_price := service.price
            created_at := now
            updated_at := none
            duration_minutes := none }
        (Except.ok appt, { db with appointments := db.appointments ++ [(newId, appt)] })

/-- The four literal values accepted by the status-update endpoint
(server.py line 475). -/
def validStatuses : List String :=
  [AppointmentStatus.PENDING, AppointmentStatus.CONFIRMED,
   AppointmentStatus.COMPLETED, AppointmentStatus.CANCELLED]

/-- The authorization check of `update_appointment_status` (server.py lines
484-493): admin, owning client, or the barber whose profile's `_id` the
appointment references. -/
def canUpdate (db : DB) (u : User) (a : Appointment) : Bool :=
  if u.role == UserRole.ADMIN then true
  else if u.role == UserRole.CLIENT && a.client_id == u.id then true
  else if u.role == UserRole.BARBER then
    match db.barbers.find? (fun p => p.2.user_id == u.id) with
    | some p => a.barber_id == p.1
    | none => false
  else false

/-- `PUT /api/appointments/{id}/status` (server.py lines 467-509).
`statusField` is `status_data.get("status")`; Python's `if not status`
treats an absent key and an empty string alike.  The `$set` updates exactly
`status` and `updated_at`; the trailing `matched_count` check mirrors the
source (it re-raises 404 when the update matched nothing). -/
def update_appointment_status (db : DB) (now : Nat) (appointment_id : String)
    (statusField : Option String) (u : User) : Except Err String × DB :=
  match statusField with
  | none => (Except.error Err.missingStatus, db)
  | some s =>
    if s == "" then (Except.error Err.missingStatus, db)
    else if !(validStatuses.contains s) then (Except.error Err.invalidStatus, db)
    else
      match findAppt db appointment_id with
      | none => (Except.error Err.notFoundAppointment, db)
      | some a =>
        if !(canUpdate db u a) then (Except.error Err.forbidden, db)
        else
          let appointments' := db.appointments.map (fun p =>
            if p.1 == appointment_id then
              (p.1, { p.2 with status := s, updated_at := some now })
            else p)
          let matched := db.appointments.any (fun p => p.1 == appointment_id)
          if !matched then (Except.error Err.notFoundAppointment, db)
          else (Except.ok ("Estado de cita actualizado a " ++ s),
                { db with appointments := appointments' })

/-- The `$set` document of `PUT /api/services/{id}` (server.py lines
364-370): every `ServiceCreate` field plus `updated_at`. -/
def applyServiceUpdate (s : Service) (sd : ServiceCreate) (now : Nat) :
    Service :=
  { s with
    name := sd.name
    description := sd.description
    duration_minutes := sd.duration_minutes
    price := sd.price
    category := sd.category
    updated_at := some now }

/-- `PUT /api/services/{id}` (server.py lines 358-377): admin-only;
`update_one` on the `services` collection, then 404 when nothing matched. -/
def update_service (db : DB) (now : Nat) (service_id : String)
    (sd : ServiceCreate) (u : User) : Except Err String × DB :=
  if !(u.role == UserRole.ADMIN) then (Except.error Err.forbidden, db)
  else
    let services' := db.services.map (fun p =>
      if p.1 == service_id then (p.1, applyServiceUpdate p.2 sd now) else p)
    let matched := db.services.any (fun p => p.1 == service_id)
    if !matched then
      (Except.error Err.notFoundService, { db with services := services' })
    else
      (Except.ok "Servicio actualizado exitosamente",
       { db with services := services' })

/-- The day-bounded fetch filter of the availability endpoint (server.py
lines 535-539): same barber, `scheduled_at` between `start_of_day` and
`end_of_day` inclusive, status pending or confirmed. -/
def apptFetchFilter (bid : String) (dayIdx : Nat) (a : Appointment) : Bool :=
  a.barber_id == bid
    && decide (dayIdx * msPerDay ≤ a.scheduled_at)
    && decide (a.scheduled_at ≤ dayIdx * msPerDay + (msPerDay - 1))
    && isActive a

/-- The `while current_slot < end_datetime` loop of the availability
endpoint (server.py lines 557-570): at each 30-minute step, emit the
candidate when it conflicts with no fetched occupied interval and lies
strictly after `now`. -/
def slotLoop (intervals : List (Nat × Nat)) (now endDT current : Nat) :
    List Nat :=
  if h : current < endDT then
    let slot_end := current + 30 * msPerMin
    let is_available :=
      intervals.all (fun ap => !(slotConflicts current slot_end ap.1 ap.2))
    (if is_available && decide (current > now) then [current] else [])
      ++ slotLoop intervals now endDT (current + 30 * msPerMin)
  else []
termination_by endDT - current
decreasing_by
  simp only [msPerMin]
  omega

/-- `GET /api/barbers/{id}/availability` (server.py lines 512-574).  The
query-string date is embedded as an already-parsed day index. -/
def get_barber_availability (db : DB) (now : Nat) (barber_id : String)
    (dayIdx : Nat) : Except Err (List Nat) :=
  match findBarber db barber_id with
  | none => Except.error Err.notFoundBarber
  | some barber =>
    match scheduleLookup barber.schedule (dayName dayIdx) with
    | none => Except.ok []
    | some ds =>
      let intervals :=
        (db.appointments.filter (fun p => apptFetchFilter barber_id dayIdx p.2)).map
          (fun p => (p.2.scheduled_at,
                     p.2.scheduled_at + durationOf db p.2 * msPerMin))
      let current0 := dayIdx * msPerDay + hmToMs ds.start
      let endDT := dayIdx * msPerDay + hmToMs ds.stop
      Except.ok (slotLoop intervals now endDT current0)

/-- A core mutating operation, for stating invariants over operation
sequences. -/
inductive Op where
  | createOp (now : Nat) (newId : String) (d : AppointmentCreate) : Op
  | statusOp (now : Nat) (appointment_id : String)
      (statusField : Option String) (u : User) : Op
deriving DecidableEq, Repr

/-- The store after one operation (the HTTP response is discarded). -/
def applyOp (db : DB) : Op → DB
  | Op.createOp now newId d => (create_appointment db now newId d).2
  | Op.statusOp now aid sf u => (update_appointment_status db now aid sf u).2

/-- The store after a sequence of core operations. -/
def runSeq (db : DB) (ops : List Op) : DB :=
  ops.foldl applyOp db

/-- Decidable form of the non-overlap invariant: every pair of distinct
active (pending/confirmed) appointments of the same barber has
non-overlapping occupied intervals. -/
def checkNonOverlap (db : DB) : Bool :=
  db.appointments.all (fun p =>
    db.appointments.all (fun q =>
      p.1 == q.1
        || !(p.2.barber_id == q.2.barber_id)
        || !(isActive p.2)
        || !(isActive q.2)
        || !(overlaps (occupiedInterval db p.2) (occupiedInterval db q.2))))

/-- Close-of-window instant of a barber's day, resolved exactly as the
availability endpoint resolves `end_datetime` (0 when the barber or the
day's schedule entry is absent, in which case no slot is generated). -/
def closeInstant (db : DB) (bid : String) (dayIdx : Nat) : Nat :=
  match findBarber db bid with
  | none => 0
  | some barber =>
    match scheduleLookup barber.schedule (dayName dayIdx) with
    | none => 0
    | some ds => dayIdx * msPerDay + hmToMs ds.stop

/-! ## Concrete fixtures

Day index 4 (1970-01-05) is a Monday.  Its midnight is
`4 * msPerDay = 345600000`; 09:00 is `378000000`, 10:00 is `381600000`,
10:30 is `383400000`, 10:45 is `384300000`, 11:00 is `385200000`,
16:30 is `405000000`, 17:00 is `406800000`. -/

/-- A 30-minute service (the source's seeded "Corte de Cabello"). -/
def svc30 : Service :=
  { name := "Corte de Cabello", description := none, duration_minutes := 30,
    price := 25, category := none, active := true, created_at := 0,
    updated_at := none }

/-- A 45-minute service (the source's seeded "Corte + Barba"). -/
def svc45 : Service :=
  { name := "Corte + Barba", description := none, duration_minutes := 45,
    price := 35, category := none, active := true, created_at := 0,
    updated_at := none }

/-- A 60-minute service (the source's seeded "Paquete Premium"). -/
def svc60 : Service :=
  { name := "Paquete Premium", description := none, duration_minutes := 60,
    price := 50, category := none, active := true, created_at := 0,
    updated_at := none }

/-- A barber working Mondays 09:00-17:00. -/
def barberFull : Barber :=
  { user_id := "u1",
    schedule := [("monday", { start := ⟨9, 0⟩, stop := ⟨17, 0⟩ })],
    active := true }

/-- A barber working Mondays 09:00-09:45 (close not aligned to the
30-minute granularity). -/
def barberShort : Barber :=
  { user_id := "u1",
    schedule := [("monday", { start := ⟨9, 0⟩, stop := ⟨9, 45⟩ })],
    active := true }

/-- A barber working Mondays 00:00-01:00. -/
def barberNight : Barber :=
  { user_id := "u1",
    schedule := [("monday", { start := ⟨0, 0⟩, stop := ⟨1, 0⟩ })],
    active := true }

/-- Store with one service and one barber and an empty calendar. -/
def db0 : DB :=
  { services := [("s30", svc30)], barbers := [("b1", barberFull)],
    appointments := [] }

/-- Booking request for barber `b1`, service `s30`, Monday 10:00. -/
def dC1 : AppointmentCreate :=
  { client_id := "c1", barber_id := "b1", service_id := "s30",
    scheduled_at := 381600000, notes := none }

/-- The stored appointment a successful `create_appointment` of `dC1`
persists: pending, price snapshotted from `svc30`, and — exactly as the
insert dict of server.py lines 413-417 — no `duration_minutes` field. -/
def apptOne : Appointment :=
  { client_id := "c1", barber_id := "b1", service_id := "s30",
    scheduled_at := 381600000, status := "pending", notes := none,
    total_price := 25, created_at := 0, updated_at := none,
    duration_minutes := none }

/-- Store already holding `apptOne` (pending, Monday 10:00-10:30). -/
def dbOne : DB :=
  { services := [("s30", svc30)], barbers := [("b1", barberFull)],
    appointments := [("a1", apptOne)] }

/-- Booking request overlapping `apptOne` by exactly one minute:
10:29-10:59 against 10:00-10:30. -/
def dC3 : AppointmentCreate :=
  { client_id := "c2", barber_id := "b1", service_id := "s30",
    scheduled_at := 383340000, notes := none }

/-- The appointment `create_appointment db0 7 "a1" dC1` persists. -/
def createdC4 : Appointment :=
  { client_id := "c1", barber_id := "b1", service_id := "s30",
    scheduled_at := 381600000, status := "pending", notes := none,
    total_price := 25, created_at := 7, updated_at := none,
    duration_minutes := none }

/-- Scenario B's existing appointment: confirmed, Monday 10:00, 45-minute
service `s45`. -/
def apptB : Appointment :=
  { client_id := "c1", barber_id := "b1", service_id := "s45",
    scheduled_at := 381600000, status := "confirmed", notes := none,
    total_price := 35, created_at := 0, updated_at := none,
    duration_minutes := none }

/-- Scenario B store: barber working 09:00-17:00 with `apptB` booked. -/
def dbB : DB :=
  { services := [("s45", svc45)], barbers := [("b1", barberFull)],
    appointments := [("a1", apptB)] }

/-- The slot list the availability endpoint generates in Scenario B:
09:00, 09:30, then 11:00 through 16:30 — 10:00 and 10:30 are excluded by
the booked 10:00-10:45 interval, and 10:45 (384300000) is not a candidate
at all because candidates step in 30-minute increments from 09:00. -/
def c5slots : List Nat :=
  [378000000, 379800000, 385200000, 387000000, 388800000, 390600000,
   392400000, 394200000, 396000000, 397800000, 399600000, 401400000,
   403200000, 405000000]

/-- Store for the closing-time boundary: barber works 09:00-09:45, empty
calendar. -/
def dbC6 : DB :=
  { services := [], barbers := [("b1", barberShort)], appointments := [] }

/-- A confirmed appointment starting Sunday 23:30 with the 60-minute
service `s60`: its occupied interval runs to Monday 00:30. -/
def apptC9 : Appointment :=
  { client_id := "c1", barber_id := "b1", service_id := "s60",
    scheduled_at := 343800000, status := "confirmed", notes := none,
    total_price := 50, created_at := 0, updated_at := none,
    duration_minutes := none }

/-- Store for the cross-midnight scenario: barber works Mondays
00:00-01:00 and holds `apptC9`. -/
def dbC9 : DB :=
  { services := [("s60", svc60)], barbers := [("b1", barberNight)],
    appointments := [("a0", apptC9)] }

/-- An admin actor. -/
def adminU : User := { id := "adm", role := "admin" }

/-- An entirely empty store. -/
def dbE : DB := { services := [], barbers := [], appointments := [] }

/-! ## Helper lemmas -/

/-- If `findAppt` resolves an id, the `update_one` filter on that id
matches at least one document. -/
theorem any_key_of_findAppt {db : DB} {aid : String} {a : Appointment}
    (h : findAppt db aid = some a) :
    db.appointments.any (fun p => p.1 == aid) = true := by
  unfold findAppt at h
  cases hf : db.appointments.find? (fun p => p.1 == aid) with
  | none => rw [hf] at h; simp at h
  | some p =>
    exact List.any_eq_true.mpr
      ⟨p, List.mem_of_find?_eq_some hf, (List.find?_eq_some.mp hf).1⟩

/-- Every start the slot loop emits is strictly below the loop bound
`end_datetime`. -/
theorem slotLoop_mem_lt (intervals : List (Nat × Nat))
    (now endDT current : Nat) :
    ∀ t ∈ slotLoop intervals now endDT current, t < endDT := by
  refine slotLoop.induct intervals now endDT
    (fun c => ∀ t ∈ slotLoop intervals now endDT c, t < endDT) ?_ ?_ current
  · intro x hx ih t ht
    rw [slotLoop] at ht
    simp only [dif_pos hx, List.mem_append] at ht
    rcases ht with h1 | h2
    · split at h1
      · simp only [List.mem_singleton] at h1
        omega
      · simp at h1
    · exact ih t h2
  · intro x hx t ht
    rw [slotLoop] at ht
    simp only [dif_neg hx] at ht
    simp at ht

/-! ## Claim theorems -/

/-- Claim C1 (code bug): the non-overlap invariant does NOT survive
sequences of core operations.  Two identical `create_appointment` calls
for the same barber, service and start instant both succeed — the conflict
query's `$expr` reads the `duration_minutes` field, which no stored
appointment has, so it never matches — leaving two active appointments of
the same barber with identical (hence overlapping) occupied intervals. -/
theorem c1_double_create_breaks_nonoverlap :
    (runSeq db0 [Op.createOp 0 "a1" dC1, Op.createOp 1 "a2" dC1]).appointments.length = 2
    ∧ checkNonOverlap
        (runSeq db0 [Op.createOp 0 "a1" dC1, Op.createOp 1 "a2" dC1]) = false := by
  constructor
  · rfl
  · rfl

/-- Claim C2 (code bug): `create_appointment` does NOT fail with a
scheduling conflict when the candidate interval overlaps an active
appointment of the same barber.  Here the store holds a pending
appointment whose occupied interval (service duration 30) coincides with
the candidate's, yet the create succeeds, because the stored document
carries no `duration_minutes` field and the conflict query's `$expr`
therefore matches nothing. -/
theorem c2_overlapping_create_not_rejected :
    (create_appointment dbOne 1 "a2" dC1).1.isOk = true
    ∧ isActive apptOne = true
    ∧ apptOne.barber_id = dC1.barber_id
    ∧ overlaps (occupiedInterval dbOne apptOne)
        (dC1.scheduled_at,
         dC1.scheduled_at + svc30.duration_minutes * msPerMin) = true := by
  refine ⟨rfl, rfl, rfl, rfl⟩

/-- Claim C3 (code bug): the slot-filter predicate of the availability
endpoint is exactly the strict half-open overlap rule
(`[a,b)` and `[c,d)` conflict iff `a < d ∧ c < b`), but conflict detection
at creation time does not implement that rule on the stored data: a
booking overlapping an active appointment by exactly one minute
(10:29-10:59 against pending 10:00-10:30) is accepted. -/
theorem c3_half_open_rule_only_in_slot_filter :
    (∀ a b c d : Nat, slotConflicts a b c d = true ↔ (a < d ∧ c < b))
    ∧ (create_appointment dbOne 1 "a2" dC3).1.isOk = true
    ∧ overlaps (occupiedInterval dbOne apptOne)
        (dC3.scheduled_at,
         dC3.scheduled_at + svc30.duration_minutes * msPerMin) = true := by
  refine ⟨fun a b c d => ?_, rfl, rfl⟩
  simp [slotConflicts]

/-- Claim C4 (code bug): at booking time the service's price IS copied
onto the persisted appointment (`total_price`), but the service's duration
is NOT: the insert dict consists of the request fields plus `total_price`,
`created_at` and `status`, so the stored document has no duration field
(`duration_minutes = none`) and the occupied interval is not reconstructible
from the appointment record alone. -/
theorem c4_price_snapshotted_duration_not_stored :
    create_appointment db0 7 "a1" dC1 =
      (Except.ok createdC4, { db0 with appointments := [("a1", createdC4)] })
    ∧ createdC4.total_price = svc30.price
    ∧ createdC4.duration_minutes = none := by
  refine ⟨rfl, rfl, rfl⟩

/-- Claim C10: `create_appointment` is atomic on failure — every check
(service lookup, barber lookup, conflict query) precedes the single
insert, so a failing call leaves the appointment store exactly as it
was. -/
theorem c10_create_atomic_on_failure (db : DB) (now : Nat) (newId : String)
    (d : AppointmentCreate) (e : Err)
    (h : (create_appointment db now newId d).1 = Except.error e) :
    (create_appointment db now newId d).2 = db := by
  rcases hs : findService db d.service_id with _ | service
  · simp [create_appointment, hs]
  · rcases hb : findBarber db d.barber_id with _ | barber
    · simp [create_appointment, hs, hb]
    · rcases hc : db.appointments.find? (fun p =>
          conflictQueryMatches d.barber_id d.scheduled_at
            (d.scheduled_at + service.duration_minutes * msPerMin) p.2)
        with _ | q
      · simp [create_appointment, hs, hb, hc] at h
      · simp [create_appointment, hs, hb, hc]

/-- Claim C10 witness: creating against an empty catalog fails (service
not found) and leaves the empty store unchanged. -/
theorem c10_witness : (create_appointment dbE 0 "a1" dC1).2 = dbE :=
  c10_create_atomic_on_failure dbE 0 "a1" dC1 Err.notFoundService rfl

/-- Evaluation of the availability endpoint on the Scenario B store. -/
theorem dbB_availability_eval :
    get_barber_availability dbB 0 "b1" 4 = Except.ok c5slots := by
  have h : get_barber_availability dbB 0 "b1" 4 =
      Except.ok (slotLoop [(381600000, 384300000)] 0 406800000 378000000) :=
    rfl
  rw [h]
  iterate 17 rw [slotLoop]
  norm_num [slotConflicts, msPerMin, c5slots]

/-- Claim C5, counterexample: in Scenario B (barber working 09:00-17:00,
confirmed 10:00-10:45 appointment with a 45-minute service, 30-minute
granularity) the generated slot list does NOT include 10:45
(instant 384300000), contrary to the claim. -/
theorem c5_counterexample :
    get_barber_availability dbB 0 "b1" 4 = Except.ok c5slots
    ∧ 384300000 ∉ c5slots :=
  ⟨dbB_availability_eval, by decide⟩

/-- Claim C5, amended: in Scenario B the 10:00 (381600000) and 10:30
(383400000) candidates are excluded; 10:45 is not a candidate at all —
candidates step in 30-minute increments from the 09:00 open — so it is
absent too, and the first slot offered after the appointment is 11:00
(385200000). -/
theorem c5_amended :
    get_barber_availability dbB 0 "b1" 4 = Except.ok c5slots
    ∧ 381600000 ∉ c5slots
    ∧ 383400000 ∉ c5slots
    ∧ 384300000 ∉ c5slots
    ∧ 385200000 ∈ c5slots :=
  ⟨dbB_availability_eval, by decide, by decide, by decide, by decide⟩

/-- Evaluation of the availability endpoint for a barber whose window is
09:00-09:45: candidates are 09:00 and 09:30, and both are emitted. -/
theorem dbC6_availability_eval :
    get_barber_availability dbC6 0 "b1" 4 =
      Except.ok [378000000, 379800000] := by
  have h : get_barber_availability dbC6 0 "b1" 4 =
      Except.ok (slotLoop [] 0 380700000 378000000) := rfl
  rw [h]
  iterate 3 rw [slotLoop]
  norm_num [slotConflicts, msPerMin]

/-- Claim C6, counterexample: the loop stops once `candidateStart ≥ close`,
not once `candidateStart + granularity > close`.  With a 09:00-09:45
window the 09:30 candidate (379800000) is emitted although
09:30 + 30 minutes = 10:00 lies past the 09:45 close (380700000). -/
theorem c6_counterexample :
    get_barber_availability dbC6 0 "b1" 4 = Except.ok [378000000, 379800000]
    ∧ 379800000 ∈ [378000000, 379800000]
    ∧ closeInstant dbC6 "b1" 4 < 379800000 + 30 * msPerMin :=
  ⟨dbC6_availability_eval, by decide, by decide⟩

/-- Claim C6, amended: every start instant the availability endpoint emits
is strictly below the close of that day's working window (the loop guard
is `current_slot < end_datetime`); the slot's assumed 30-minute unit may
extend up to 29 minutes past closing when the window length is not a
multiple of the granularity. -/
theorem c6_amended (db : DB) (now : Nat) (bid : String) (dayIdx : Nat)
    (L : List Nat)
    (h : get_barber_availability db now bid dayIdx = Except.ok L) :
    ∀ t ∈ L, t < closeInstant db bid dayIdx := by
  unfold get_barber_availability at h
  split at h
  · simp at h
  · rename_i barber hb
    split at h
    · simp only [Except.ok.injEq] at h
      subst h
      intro t ht
      simp at ht
    · rename_i ds hs
      simp only [Except.ok.injEq] at h
      subst h
      unfold closeInstant
      simp only [hb, hs]
      exact slotLoop_mem_lt _ _ _ _

/-- Claim C6 witness: instantiating the amended bound at the 09:00-09:45
store — the emitted 09:00 slot starts before the 09:45 close. -/
theorem c6_witness : 378000000 < closeInstant dbC6 "b1" 4 :=
  c6_amended dbC6 0 "b1" 4 [378000000, 379800000] dbC6_availability_eval
    378000000 (by decide)

/-- Evaluation of the availability endpoint for the cross-midnight store:
the Sunday 23:30-00:30 appointment is not fetched (its `scheduled_at` lies
outside the Monday day range), so both Monday candidates are offered. -/
theorem dbC9_availability_eval :
    get_barber_availability dbC9 344000000 "b1" 4 =
      Except.ok [345600000, 347400000] := by
  have h : get_barber_availability dbC9 344000000 "b1" 4 =
      Except.ok (slotLoop [] 344000000 349200000 345600000) := rfl
  rw [h]
  iterate 3 rw [slotLoop]
  norm_num [slotConflicts, msPerMin]

/-- Claim C9: the availability fetch keeps exactly the active
appointments whose `scheduled_at` lies inside the target day, and an
active appointment that starts before midnight and spills into the day is
invisible to it: `apptC9` (confirmed, Sunday 23:30 + 60 minutes) is not
fetched, and the endpoint emits the Monday 00:00 slot (345600000) whose
30-minute unit overlaps `apptC9`'s occupied interval. -/
theorem c9_day_bounded_fetch_misses_cross_midnight :
    (∀ (a : Appointment) (bid : String) (idx : Nat),
      apptFetchFilter bid idx a = true ↔
        (a.barber_id = bid ∧ idx * msPerDay ≤ a.scheduled_at
          ∧ a.scheduled_at ≤ idx * msPerDay + (msPerDay - 1)
          ∧ (a.status = AppointmentStatus.PENDING
              ∨ a.status = AppointmentStatus.CONFIRMED)))
    ∧ isActive apptC9 = true
    ∧ apptC9.barber_id = "b1"
    ∧ apptFetchFilter "b1" 4 apptC9 = false
    ∧ get_barber_availability dbC9 344000000 "b1" 4 =
        Except.ok [345600000, 347400000]
    ∧ overlaps (345600000, 345600000 + 30 * msPerMin)
        (occupiedInterval dbC9 apptC9) = true := by
  refine ⟨?_, rfl, rfl, rfl, dbC9_availability_eval, rfl⟩
  intro a bid idx
  simp [apptFetchFilter, isActive, and_assoc]

/-- Claim C7, counterexample: a supplied status value of `""` is not one
of the four literals, yet the endpoint does not fail with the
invalid-status error — Python's `if not status` treats the empty string
like an absent key and raises "Status is required" instead. -/
theorem c7_counterexample :
    (update_appointment_status dbOne 5 "a1" (some "") adminU).1 =
      Except.error Err.missingStatus
    ∧ validStatuses.contains "" = false
    ∧ Err.missingStatus ≠ Err.invalidStatus :=
  ⟨rfl, rfl, by decide⟩

/-- Claim C7, amended: the endpoint fails with the invalid-status error
exactly when a non-empty status value is supplied that is not one of the
four literals (an absent or empty status fails with the missing-status
error instead); and any of the four values, from any current status, with
an authorized actor, succeeds and rewrites exactly the target
appointment's `status` and `updated_at` — with no conflict check. -/
theorem c7_amended (db : DB) (now : Nat) (aid : String) (sf : Option String)
    (u : User) :
    ((update_appointment_status db now aid sf u).1 =
        Except.error Err.invalidStatus
      ↔ ∃ s, sf = some s ∧ s ≠ "" ∧ validStatuses.contains s = false)
    ∧ (∀ (s : String) (a : Appointment), sf = some s →
        validStatuses.contains s = true → findAppt db aid = some a →
        canUpdate db u a = true →
        update_appointment_status db now aid sf u =
          (Except.ok ("Estado de cita actualizado a " ++ s),
           { db with appointments := db.appointments.map (fun p =>
               if p.1 == aid then
                 (p.1, { p.2 with status := s, updated_at := some now })
               else p) })) := by
  constructor
  · cases sf with
    | none => simp [update_appointment_status]
    | some s =>
      by_cases hse : s = ""
      · subst hse
        simp [update_appointment_status]
      · have hsb : (s == "") = false := by simp [hse]
        by_cases hv : validStatuses.contains s = true
        · have hmem : s ∈ validStatuses := by simpa using hv
          rcases hf : findAppt db aid with _ | a
          · simp [update_appointment_status, hsb, hmem, hf]
          · by_cases hc : canUpdate db u a = true
            · by_cases hm : db.appointments.any (fun p => p.1 == aid) = true
              · simp [update_appointment_status, hsb, hmem, hf, hc, hm]
              · simp [update_appointment_status, hsb, hmem, hf, hc,
                  Bool.eq_false_iff.mpr hm]
            · simp [update_appointment_status, hsb, hmem, hf,
                Bool.eq_false_iff.mpr hc]
        · have hnm : s ∉ validStatuses := by
            simpa using Bool.eq_false_iff.mpr hv
          simp [update_appointment_status, hsb, hnm, hse]
  · intro s a hsf hv hf hc
    subst hsf
    have hne : s ≠ "" := by
      intro h0
      subst h0
      exact absurd hv (by decide)
    have hsb : (s == "") = false := by simp [hne]
    have hmem : s ∈ validStatuses := by simpa using hv
    have hm : db.appointments.any (fun p => p.1 == aid) = true :=
      any_key_of_findAppt hf
    simp [update_appointment_status, hsb, hmem, hf, hc, hm]

/-- Claim C7 witness: an admin moving the pending appointment `a1`
directly to `completed` succeeds, and the post-state differs from the
pre-state only in that appointment's `status` and `updated_at`. -/
theorem c7_witness :
    update_appointment_status dbOne 5 "a1" (some "completed") adminU =
      (Except.ok ("Estado de cita actualizado a " ++ "completed"),
       { dbOne with appointments := dbOne.appointments.map (fun p =>
           if p.1 == "a1" then
             (p.1, { p.2 with status := "completed", updated_at := some 5 })
           else p) }) :=
  (c7_amended dbOne 5 "a1" (some "completed") adminU).2 "completed" apptOne
    rfl (by decide) rfl (by decide)

/-- Claim C8: `update_service` never touches the `appointments`
collection: whatever the actor, target id and payload, the appointment
list after the call is the one before it, and in particular every
appointment's snapshotted `total_price` is unchanged. -/
theorem c8_update_service_preserves_appointments (db : DB) (now : Nat)
    (sid : String) (sd : ServiceCreate) (u : User) :
    (update_service db now sid sd u).2.appointments = db.appointments
    ∧ ∀ aid, (findAppt (update_service db now sid sd u).2 aid).map
          Appointment.total_price
        = (findAppt db aid).map Appointment.total_price := by
  have h : (update_service db now sid sd u).2.appointments =
      db.appointments := by
    unfold update_service
    split
    · rfl
    · cases hmx : db.services.any (fun p => p.1 == sid) with
      | false => simp [hmx]
      | true => simp [hmx]
  refine ⟨h, fun aid => ?_⟩
  unfold findAppt
  rw [h]

end Barberia
